import Mathlib

/-!
Shallow embedding of src/models.py (WGAN-GP-Anime-with-Auxiliary-Classifier).

Tensors are flattened: a sample is a List of reals (all non-batch axes
collapsed into one row), a batch is a List of samples.  The backend
reductions K.mean, K.sum, K.square, K.sqrt, K.abs act elementwise or over
the flattened data exactly as the framework does.  Framework automatic
differentiation (K.gradients) cannot be re-run inside the embedding, so
loss functions that consume a gradient tensor take that tensor as an
explicit argument; randomness (K.random_uniform) is likewise an explicit
argument.  Model construction (layer trainability flags, sub-model
sharing, compile arguments, static shapes) is embedded as explicit traces
that follow the builder functions line by line.
-/

namespace WganGP

/-- K.mean over a rank-1 tensor: sum divided by length (0 for an empty
batch, matching the junk value convention of real division). -/
noncomputable def Kmean (xs : List ℝ) : ℝ := xs.sum / (xs.length : ℝ)

/-- K.mean over a rank-2 (or higher, flattened) tensor: the mean of every
entry, i.e. total sum divided by total entry count. -/
noncomputable def KmeanAll (xs : List (List ℝ)) : ℝ :=
  ((xs.map List.sum).sum) / (((xs.map List.length).sum : ℕ) : ℝ)

/-- Per-sample sum of squares of a flattened gradient row. -/
def sumSq (g : List ℝ) : ℝ := (g.map (fun x => x ^ 2)).sum

/-- Per-sample L2 norm of a flattened gradient row: the square root of the
sum over all non-batch axes of the squared entries. -/
noncomputable def l2norm (g : List ℝ) : ℝ := Real.sqrt (sumSq g)

/-- gradient_penalty_loss, src/models.py lines 24-53.  The source first
obtains gradients = K.gradients(y_pred, averaged_samples)[0]; automatic
differentiation is outside the embedding, so the gradient tensor (one
flattened row per batch sample) is the argument here.  The remaining steps
follow the source: square elementwise, sum over all non-batch axes, take
the square root, form weight * (1 - norm)^2 per sample, and return the
batch mean. -/
noncomputable def gradient_penalty_loss (gradients : List (List ℝ))
    (gradient_penalty_weight : ℝ) : ℝ :=
  let gradients_sqr := gradients.map (fun row => row.map (fun x => x ^ 2))
  let gradients_sqr_sum := gradients_sqr.map List.sum
  let gradient_l2_norm := gradients_sqr_sum.map Real.sqrt
  let gradient_penalty :=
    gradient_l2_norm.map (fun n => gradient_penalty_weight * (1 - n) ^ 2)
  Kmean gradient_penalty

/-- RandomWeightedAverage, src/models.py lines 17-22.  The Lambda block
draws one uniform scalar per batch element (K.random_uniform with shape
(batch, 1, 1, 1)) and broadcasts it over all spatial and channel axes:
weights * input1 + (1 - weights) * input2.  Randomness is external to the
embedding, so the per-batch-element weights are an explicit list; the
broadcast multiplies every entry of the flattened sample by the same
scalar. -/
def RandomWeightedAverage :
    List ℝ → List (List ℝ) → List (List ℝ) → List (List ℝ)
  | w :: ws, x1 :: xs1, x2 :: xs2 =>
      (List.zipWith (fun a b => w * a + (1 - w) * b) x1 x2)
        :: RandomWeightedAverage ws xs1 xs2
  | _, _, _ => []

/-- Static shape of a rank-3 image tensor (height, width, channels); the
batch axis is left implicit. -/
structure Shape2D where
  height : ℕ
  width : ℕ
  channels : ℕ
deriving DecidableEq

/-- Shape transform of up_bilinear, src/models.py lines 81-86: the Lambda
resizes the image to (h * 2, w * 2), keeping the channel count. -/
def up_bilinear_shape (s : Shape2D) : Shape2D :=
  ⟨2 * s.height, 2 * s.width, s.channels⟩

/-- Shape transform of Conv2DTranspose(f, k, padding=same) with the
default strides (1, 1): spatial size is preserved, channels become f. -/
def conv2d_transpose_same_shape (f : ℕ) (s : Shape2D) : Shape2D :=
  ⟨s.height, s.width, f⟩

/-- Shape transform of the conv helper (src/models.py lines 61-62) at
stride 1 with same padding: spatial size preserved, channels become f. -/
def conv_same_stride1_shape (f : ℕ) (s : Shape2D) : Shape2D :=
  ⟨s.height, s.width, f⟩

/-- Shape transform of the residual block _res_conv (src/models.py lines
64-79): a stride-1 same-padding convolution to f channels plus an identity
or 1x1 shortcut, so spatial size is preserved and channels become f. -/
def res_conv_shape (f : ℕ) (s : Shape2D) : Shape2D :=
  ⟨s.height, s.width, f⟩

/-- Modelled from the spec: the PixelShuffler layer (module pixel_shuffler,
not under src/) is the standard sub-pixel depth-to-space layer with block
size (2, 2), doubling each spatial dimension and dividing the channel count
by 4 — matching the shape annotations in src/models.py (line 153: 16x16@64
becomes 32x32@16). -/
def pixel_shuffler_shape (s : Shape2D) : Shape2D :=
  ⟨2 * s.height, 2 * s.width, s.channels / 4⟩

/-- Static output shape of residual_decoder (src/models.py lines 126-162)
for target parameters h, w and channel count c.  The dense layer reshapes
the latent input to (h, w, 512) and the decoder then applies, in source
order: up_bilinear, Conv2DTranspose 128, up_bilinear, Conv2DTranspose 128,
up_bilinear, Conv2DTranspose 64, _res_conv 64, PixelShuffler,
Conv2DTranspose 32, _res_conv 32, and a final stride-1 conv to c channels
with tanh activation. -/
def residual_decoder_output_shape (h w c : ℕ) : Shape2D :=
  let s0 : Shape2D := ⟨h, w, 512⟩
  let s1 := up_bilinear_shape s0
  let s2 := conv2d_transpose_same_shape 128 s1
  let s3 := up_bilinear_shape s2
  let s4 := conv2d_transpose_same_shape 128 s3
  let s5 := up_bilinear_shape s4
  let s6 := conv2d_transpose_same_shape 64 s5
  let s7 := res_conv_shape 64 s6
  let s8 := pixel_shuffler_shape s7
  let s9 := conv2d_transpose_same_shape 32 s8
  let s10 := res_conv_shape 32 s9
  conv_same_stride1_shape c s10

/-- Shape of the images produced by the generator built in build_gan
(src/models.py lines 195-196): residual_decoder is instantiated with
target size (h // 16, w // 16) and c channels. -/
def build_gan_generated_shape (h w c : ℕ) : Shape2D :=
  residual_decoder_output_shape (h / 16) (w / 16) c

/-- Input shape of the discriminator built in build_gan (src/models.py
lines 88-90, 198): residual_discriminator starts from Input(shape=(h, w,
c)). -/
def build_gan_discriminator_input_shape (h w c : ℕ) : Shape2D := ⟨h, w, c⟩

/-- Shape of the images produced by the generator built in
wgangp_conditional (src/models.py lines 414-415): residual_decoder is
instantiated with target size (h // 16, w // 16) and c channels. -/
def wgangp_conditional_generated_shape (h w c : ℕ) : Shape2D :=
  residual_decoder_output_shape (h / 16) (w / 16) c

/-- Input shape of the discriminator built in wgangp_conditional
(src/models.py line 417). -/
def wgangp_conditional_discriminator_input_shape (h w c : ℕ) : Shape2D :=
  ⟨h, w, c⟩

/-- Loss added to the discriminator model in build_gan (src/models.py line
233): K.mean on the real-sample critic outputs minus K.mean on the
generated-sample critic outputs plus gradient_penalty_loss on the critic
output at the averaged samples, whose gradient with respect to those
samples is the explicit argument here. -/
noncomputable def build_gan_discriminator_loss (d_real d_fake : List ℝ)
    (averaged_gradients : List (List ℝ)) (gpw : ℝ) : ℝ :=
  Kmean d_real - Kmean d_fake + gradient_penalty_loss averaged_gradients gpw

/-- Loss added to discriminator_A_model in build_cyclewgan (src/models.py
line 399). -/
noncomputable def build_cyclewgan_discriminator_A_loss
    (d_real d_fake : List ℝ) (averaged_gradients : List (List ℝ))
    (gpw : ℝ) : ℝ :=
  Kmean d_real - Kmean d_fake + gradient_penalty_loss averaged_gradients gpw

/-- Loss added to discriminator_B_model in build_cyclewgan (src/models.py
line 403). -/
noncomputable def build_cyclewgan_discriminator_B_loss
    (d_real d_fake : List ℝ) (averaged_gradients : List (List ℝ))
    (gpw : ℝ) : ℝ :=
  Kmean d_real - Kmean d_fake + gradient_penalty_loss averaged_gradients gpw

/-- Loss added to the discriminator model in wgangp_conditional
(src/models.py line 463). -/
noncomputable def wgangp_conditional_discriminator_loss
    (d_real d_fake : List ℝ) (averaged_gradients : List (List ℝ))
    (gpw : ℝ) : ℝ :=
  Kmean d_real - Kmean d_fake + gradient_penalty_loss averaged_gradients gpw

/-- The Wasserstein critic difference stated by the spec: the mean
discriminator output on real samples minus the mean discriminator output
on generated samples. -/
noncomputable def wasserstein_critic_difference (d_real d_fake : List ℝ) : ℝ :=
  Kmean d_real - Kmean d_fake

/-- Elementwise K.abs(x - y) of two flattened samples. -/
def absDiffRow (x y : List ℝ) : List ℝ :=
  List.zipWith (fun a b => |a - b|) x y

/-- Total loss added to the generator model in build_cyclegan (src/models.py
lines 271-273): the generator networks G_A (A to B), G_B (B to A) and the
scalar critic outputs D_A, D_B are functions on flattened samples, and the
three add_loss terms are summed in source order. -/
noncomputable def build_cyclegan_generator_loss
    (G_A G_B : List ℝ → List ℝ) (D_A D_B : List ℝ → ℝ)
    (cyclic_loss_w : ℝ) (xa xb : List (List ℝ)) : ℝ :=
  0.5 * Kmean (xa.map (fun a => (D_B (G_A a)) ^ 2))
    + 0.5 * Kmean (xb.map (fun b => (D_A (G_B b)) ^ 2))
    + cyclic_loss_w *
      (KmeanAll (xa.map (fun a => absDiffRow a (G_B (G_A a))))
        + KmeanAll (xb.map (fun b => absDiffRow b (G_A (G_B b)))))

/-- Total loss added to the generator model in build_cyclewgan
(src/models.py lines 353-355). -/
noncomputable def build_cyclewgan_generator_loss
    (G_A G_B : List ℝ → List ℝ) (D_A D_B : List ℝ → ℝ)
    (cyclic_loss_w : ℝ) (xa xb : List (List ℝ)) : ℝ :=
  Kmean (xa.map (fun a => D_B (G_A a)))
    + Kmean (xb.map (fun b => D_A (G_B b)))
    + cyclic_loss_w *
      (KmeanAll (xa.map (fun a => absDiffRow a (G_B (G_A a))))
        + KmeanAll (xb.map (fun b => absDiffRow b (G_A (G_B b)))))

/-- The mean absolute difference stated by the spec between a batch of
inputs and the batch of their reconstructions. -/
noncomputable def meanAbsDiff (xs recon : List (List ℝ)) : ℝ :=
  KmeanAll ((xs.zip recon).map (fun p => absDiffRow p.1 p.2))

/-- The cycle-consistency term stated by the spec: cyclic_loss_w times the
sum of the mean absolute difference between each domain-A input and its
A-to-B-to-A reconstruction and the mean absolute difference between each
domain-B input and its B-to-A-to-B reconstruction. -/
noncomputable def cycle_consistency_term (G_A G_B : List ℝ → List ℝ)
    (cyclic_loss_w : ℝ) (xa xb : List (List ℝ)) : ℝ :=
  cyclic_loss_w *
    (meanAbsDiff xa (xa.map (fun a => G_B (G_A a)))
      + meanAbsDiff xb (xb.map (fun b => G_A (G_B b))))

/-- Activation of a Dense output layer, as named in the source. -/
inductive Act
  | linear
  | softmax
deriving DecidableEq

/-- Units and activation of a Dense output layer. -/
structure DenseOut where
  units : ℕ
  activation : Act
deriving DecidableEq

/-- Output layer of residual_discriminator (src/models.py lines 120-123):
with as_classifier > 0 a Dense(as_classifier) layer with softmax
activation, otherwise a Dense(1) layer with no (linear) activation. -/
def residual_discriminator_output (as_classifier : ℕ) : DenseOut :=
  if as_classifier > 0 then ⟨as_classifier, Act.softmax⟩
  else ⟨1, Act.linear⟩

/-- Softmax over a flattened logit row, the semantics of the softmax
activation of the classifier head. -/
noncomputable def softmax (xs : List ℝ) : List ℝ :=
  xs.map (fun x => Real.exp x / (xs.map Real.exp).sum)

/-- A Keras compile-time loss identifier used in this file. -/
inductive KerasLoss
  | categorical_crossentropy
deriving DecidableEq

/-- The as_classifier argument wgangp_conditional passes when building the
classifier network (src/models.py line 418). -/
def wgangp_conditional_classifier_units (condition_dim : ℕ) : ℕ :=
  condition_dim

/-- compile loss of the classifier model in wgangp_conditional
(src/models.py line 467). -/
def wgangp_conditional_classifier_compile_loss : Option KerasLoss :=
  some KerasLoss.categorical_crossentropy

/-- compile losses of the generator model in wgangp_conditional
(src/models.py line 434): None for the discriminator output head and
categorical cross-entropy for the classifier output head on the generated
samples. -/
def wgangp_conditional_generator_compile_losses : List (Option KerasLoss) :=
  [none, some KerasLoss.categorical_crossentropy]

/-- add_loss term of the generator model in wgangp_conditional
(src/models.py line 433): the mean critic output on generated samples. -/
noncomputable def wgangp_conditional_generator_add_loss
    (d_fake : List ℝ) : ℝ :=
  Kmean d_fake

/-- Input-layer dimension of residual_decoder (src/models.py line 128):
Input(shape=(latent_dim,)). -/
def residual_decoder_input_dim (latent_dim : ℕ) : ℕ := latent_dim

/-- latent_dim argument build_gan passes to residual_decoder
(src/models.py line 196). -/
def build_gan_decoder_latent_dim (latent_dim : ℕ) : ℕ := latent_dim

/-- Size of the noise Input tensors build_gan wires to the generator
(src/models.py lines 203 and 224): Input(shape=(latent_dim,)). -/
def build_gan_noise_input_dim (latent_dim : ℕ) : ℕ := latent_dim

/-- latent_dim argument wgangp_conditional passes to residual_decoder
(src/models.py line 415): latent_dim + condition_dim. -/
def wgangp_conditional_decoder_latent_dim
    (latent_dim condition_dim : ℕ) : ℕ :=
  latent_dim + condition_dim

/-- Size of the noise Input tensors wgangp_conditional wires to the
generator (src/models.py lines 426 and 452):
Input(shape=(latent_dim + condition_dim,)). -/
def wgangp_conditional_noise_input_dim
    (latent_dim condition_dim : ℕ) : ℕ :=
  latent_dim + condition_dim

/-- Trainability flags of the layers of the sub-networks built by
build_gan and wgangp_conditional.  Each builder sets all layers of a
sub-network to the same flag, so one Bool per sub-network suffices; the
classifier field is unused by build_gan. -/
structure GanFlags where
  generator_layers : Bool
  discriminator_layers : Bool
  classifier_layers : Bool
deriving DecidableEq

/-- Keras layers are trainable when created. -/
def kerasDefaultGanFlags : GanFlags := ⟨true, true, true⟩

/-- Flag mutations of build_gan (src/models.py lines 198-236), replayed in
source order.  Returns the flags in force when generator_model.compile
runs (line 209), when discriminator_model.compile runs (line 234), and
when the builder returns (line 236). -/
def build_gan_flag_trace : GanFlags × GanFlags × GanFlags :=
  let s0 := kerasDefaultGanFlags
  let s1 := { s0 with discriminator_layers := false }
  let at_generator_compile := s1
  let s2 := { s1 with discriminator_layers := true,
                      generator_layers := false }
  let at_discriminator_compile := s2
  (at_generator_compile, at_discriminator_compile, s2)

/-- Flag mutations of wgangp_conditional (src/models.py lines 417-469),
replayed in source order.  Returns the flags in force when
generator_model.compile runs (line 434), when discriminator_model.compile
runs (line 464), when classifier_model.compile runs (line 467), and when
the builder returns (line 469). -/
def wgangp_conditional_flag_trace :
    GanFlags × GanFlags × GanFlags × GanFlags :=
  let s0 := kerasDefaultGanFlags
  let s1 := { s0 with discriminator_layers := false,
                      classifier_layers := false }
  let at_generator_compile := s1
  let s2 := { s1 with discriminator_layers := true,
                      classifier_layers := true,
                      generator_layers := false }
  let at_discriminator_compile := s2
  let at_classifier_compile := s2
  (at_generator_compile, at_discriminator_compile, at_classifier_compile, s2)

/-- Trainability flags of the layers of the four sub-networks built by
build_cyclegan and build_cyclewgan. -/
structure CycleFlags where
  generator_A_layers : Bool
  generator_B_layers : Bool
  discriminator_A_layers : Bool
  discriminator_B_layers : Bool
deriving DecidableEq

/-- Keras layers are trainable when created. -/
def kerasDefaultCycleFlags : CycleFlags := ⟨true, true, true, true⟩

/-- Flag mutations of build_cyclegan (src/models.py lines 244-318),
replayed in source order.  Returns the flags in force when
generator_model.compile runs (line 274), when
discriminator_A_model.compile runs (line 312), when
discriminator_B_model.compile runs (line 316), and when the builder
returns (line 318). -/
def build_cyclegan_flag_trace :
    CycleFlags × CycleFlags × CycleFlags × CycleFlags :=
  let s0 := kerasDefaultCycleFlags
  let s1 := { s0 with discriminator_A_layers := false,
                      discriminator_B_layers := false }
  let at_generator_compile := s1
  let s2 := { s1 with discriminator_A_layers := true,
                      discriminator_B_layers := true,
                      generator_A_layers := false,
                      generator_B_layers := false }
  let at_discriminator_A_compile := s2
  let at_discriminator_B_compile := s2
  (at_generator_compile, at_discriminator_A_compile,
    at_discriminator_B_compile, s2)

/-- Flag mutations of build_cyclewgan (src/models.py lines 326-406),
replayed in source order; identical to build_cyclegan (compiles at lines
356, 400, 404; return at line 406). -/
def build_cyclewgan_flag_trace :
    CycleFlags × CycleFlags × CycleFlags × CycleFlags :=
  let s0 := kerasDefaultCycleFlags
  let s1 := { s0 with discriminator_A_layers := false,
                      discriminator_B_layers := false }
  let at_generator_compile := s1
  let s2 := { s1 with discriminator_A_layers := true,
                      discriminator_B_layers := true,
                      generator_A_layers := false,
                      generator_B_layers := false }
  let at_discriminator_A_compile := s2
  let at_discriminator_B_compile := s2
  (at_generator_compile, at_discriminator_A_compile,
    at_discriminator_B_compile, s2)

/-- Sub-network instances created by a builder (identified by allocation
order) and the instances each compiled joint model applies.  Two joint
models share weights exactly when they name the same instance ids. -/
structure Wiring where
  generator_instances : List ℕ
  discriminator_instances : List ℕ
  classifier_instances : List ℕ
  generator_model_subnets : List ℕ
  discriminator_model_subnets : List ℕ
  discriminator_B_model_subnets : List ℕ
  classifier_model_subnets : List ℕ
deriving DecidableEq

/-- Wiring of build_gan (src/models.py lines 196-236): the single
generator instance 0 (line 196) and discriminator instance 1 (line 198)
are the only networks created; generator_model applies the generator
(line 204) and the discriminator (line 206), and discriminator_model
applies the generator (line 225) and the discriminator (lines 226, 227,
230). -/
def build_gan_wiring : Wiring where
  generator_instances := [0]
  discriminator_instances := [1]
  classifier_instances := []
  generator_model_subnets := [0, 1]
  discriminator_model_subnets := [0, 1]
  discriminator_B_model_subnets := []
  classifier_model_subnets := []

/-- Wiring of build_cyclegan (src/models.py lines 244-318): generator_A is
instance 0 (line 244), generator_B instance 1 (line 245), discriminator_A
instance 2 (line 247), discriminator_B instance 3 (line 248).
generator_model applies all four (lines 257-268); discriminator_A_model
applies generator_B and discriminator_A (lines 302, 307, 308);
discriminator_B_model applies generator_A and discriminator_B (lines 301,
304, 305). -/
def build_cyclegan_wiring : Wiring where
  generator_instances := [0, 1]
  discriminator_instances := [2, 3]
  classifier_instances := []
  generator_model_subnets := [0, 1, 2, 3]
  discriminator_model_subnets := [1, 2]
  discriminator_B_model_subnets := [0, 3]
  classifier_model_subnets := []

/-- Wiring of build_cyclewgan (src/models.py lines 326-406): instance
numbering and model wiring are the same as in build_cyclegan (creation at
lines 326-330; generator_model at lines 339-352; discriminator_A_model at
lines 384, 392-398; discriminator_B_model at lines 383, 386-402). -/
def build_cyclewgan_wiring : Wiring where
  generator_instances := [0, 1]
  discriminator_instances := [2, 3]
  classifier_instances := []
  generator_model_subnets := [0, 1, 2, 3]
  discriminator_model_subnets := [1, 2]
  discriminator_B_model_subnets := [0, 3]
  classifier_model_subnets := []

/-- Wiring of wgangp_conditional (src/models.py lines 415-469): generator
is instance 0 (line 415), discriminator instance 1 (line 417), classifier
instance 2 (line 418).  generator_model applies all three (lines 427-432);
discriminator_model applies the generator (line 453) and the discriminator
(lines 454, 455, 460); classifier_model applies the classifier (lines 457,
466). -/
def wgangp_conditional_wiring : Wiring where
  generator_instances := [0]
  discriminator_instances := [1]
  classifier_instances := [2]
  generator_model_subnets := [0, 1, 2]
  discriminator_model_subnets := [0, 1]
  discriminator_B_model_subnets := []
  classifier_model_subnets := [2]

end WganGP

namespace WganGP

lemma sum_map_mul_left (w : ℝ) (l : List ℝ) :
    (l.map (fun x => w * x)).sum = w * l.sum := by
  induction l with
  | nil => simp
  | cons a t ih => simp [ih, mul_add]

lemma Kmean_map_mul_left (w : ℝ) (l : List ℝ) :
    Kmean (l.map (fun x => w * x)) = w * Kmean l := by
  unfold Kmean
  rw [List.length_map, sum_map_mul_left, mul_div_assoc]

lemma gradient_penalty_loss_eq (gradients : List (List ℝ)) (w : ℝ) :
    gradient_penalty_loss gradients w
      = w * Kmean (gradients.map (fun g => (1 - l2norm g) ^ 2)) := by
  unfold gradient_penalty_loss
  dsimp only
  have h :
      (((gradients.map (fun row => row.map (fun x => x ^ 2))).map
          List.sum).map Real.sqrt).map (fun n => w * (1 - n) ^ 2)
        = (gradients.map (fun g => (1 - l2norm g) ^ 2)).map
            (fun x => w * x) := by
    simp only [List.map_map]
    rfl
  rw [h, Kmean_map_mul_left]

/-- C1: gradient_penalty_loss returns the gradient-penalty weight times the
batch mean of the square of (1 minus the per-sample L2 norm of the gradient
of the critic output with respect to the averaged samples), the norm being
taken over all non-batch axes of each sample. -/
theorem gradient_penalty_loss_spec (gradients : List (List ℝ)) (w : ℝ) :
    gradient_penalty_loss gradients w
      = w * Kmean (gradients.map (fun g => (1 - l2norm g) ^ 2)) :=
  gradient_penalty_loss_eq gradients w

lemma Kmean_nonneg (l : List ℝ) (h : ∀ x ∈ l, 0 ≤ x) : 0 ≤ Kmean l :=
  div_nonneg (List.sum_nonneg h) (Nat.cast_nonneg _)

lemma sum_eq_zero_iff_of_nonneg (l : List ℝ) (h : ∀ x ∈ l, 0 ≤ x) :
    l.sum = 0 ↔ ∀ x ∈ l, x = 0 := by
  induction l with
  | nil => simp
  | cons a t ih =>
    have ha : 0 ≤ a := h a (List.mem_cons_self a t)
    have ht : ∀ x ∈ t, 0 ≤ x := fun x hx => h x (List.mem_cons_of_mem a hx)
    have hts : 0 ≤ t.sum := List.sum_nonneg ht
    constructor
    · intro h0
      have ha0 : a = 0 := by
        by_contra hne
        have : 0 < a := lt_of_le_of_ne ha (Ne.symm hne)
        have : 0 < a + t.sum := by linarith
        simp [List.sum_cons] at h0
        linarith
      have hts0 : t.sum = 0 := by
        simp [List.sum_cons, ha0] at h0
        exact h0
      intro x hx
      rcases List.mem_cons.mp hx with hx | hx
      · simpa [hx] using ha0
      · exact (ih ht).mp hts0 x hx
    · intro hall
      have ha0 : a = 0 := hall a (List.mem_cons_self a t)
      have : t.sum = 0 :=
        (ih ht).mpr (fun x hx => hall x (List.mem_cons_of_mem a hx))
      simp [List.sum_cons, ha0, this]

lemma Kmean_eq_zero_iff_of_nonneg (l : List ℝ) (h : ∀ x ∈ l, 0 ≤ x) :
    Kmean l = 0 ↔ ∀ x ∈ l, x = 0 := by
  cases l with
  | nil => simp [Kmean]
  | cons a t =>
    unfold Kmean
    have hlen : ((a :: t).length : ℝ) ≠ 0 :=
      Nat.cast_ne_zero.mpr (by simp)
    rw [div_eq_zero_iff]
    simp only [hlen, or_false]
    exact sum_eq_zero_iff_of_nonneg _ h

/-- C10: for a nonnegative gradient-penalty weight the loss is
nonnegative, and for a strictly positive weight it vanishes exactly when
every sample in the batch has gradient L2 norm equal to 1. -/
theorem gradient_penalty_loss_nonneg_iff (gradients : List (List ℝ))
    (w : ℝ) (hw : 0 ≤ w) :
    0 ≤ gradient_penalty_loss gradients w ∧
      (0 < w →
        (gradient_penalty_loss gradients w = 0 ↔
          ∀ g ∈ gradients, l2norm g = 1)) := by
  have hnn : ∀ x ∈ gradients.map (fun g => (1 - l2norm g) ^ 2), 0 ≤ x := by
    intro x hx
    rcases List.mem_map.mp hx with ⟨g, _, rfl⟩
    positivity
  constructor
  · rw [gradient_penalty_loss_eq]
    exact mul_nonneg hw (Kmean_nonneg _ hnn)
  · intro hpos
    rw [gradient_penalty_loss_eq]
    have hwne : w ≠ 0 := ne_of_gt hpos
    rw [mul_eq_zero]
    simp only [hwne, false_or]
    rw [Kmean_eq_zero_iff_of_nonneg _ hnn]
    constructor
    · intro hall g hg
      have := hall ((1 - l2norm g) ^ 2) (List.mem_map.mpr ⟨g, hg, rfl⟩)
      have h0 : 1 - l2norm g = 0 := by
        exact pow_eq_zero_iff two_ne_zero |>.mp this
      linarith
    · intro hall x hx
      rcases List.mem_map.mp hx with ⟨g, hg, rfl⟩
      rw [hall g hg]
      ring

/-- Concrete instantiation of gradient_penalty_loss_nonneg_iff at the
gradient batch [[1,0],[0,1]] and weight 2. -/
theorem gradient_penalty_loss_nonneg_iff_witness :
    (0 : ℝ) ≤ 2 ∧
      (0 ≤ gradient_penalty_loss [[1, 0], [0, 1]] 2 ∧
        (0 < (2 : ℝ) →
          (gradient_penalty_loss [[1, 0], [0, 1]] 2 = 0 ↔
            ∀ g ∈ [[(1 : ℝ), 0], [0, 1]], l2norm g = 1))) :=
  ⟨by norm_num, gradient_penalty_loss_nonneg_iff [[1, 0], [0, 1]] 2 (by norm_num)⟩

lemma randomWeightedAverage_getElem (weights : List ℝ)
    (input1 input2 : List (List ℝ)) (i : ℕ) (hi : i < weights.length)
    (h1 : i < input1.length) (h2 : i < input2.length) :
    (RandomWeightedAverage weights input1 input2)[i]? =
      some (List.zipWith
        (fun a b => weights.get ⟨i, hi⟩ * a + (1 - weights.get ⟨i, hi⟩) * b)
        (input1.get ⟨i, h1⟩) (input2.get ⟨i, h2⟩)) := by
  induction weights generalizing input1 input2 i with
  | nil => simp at hi
  | cons w ws ih =>
    cases input1 with
    | nil => simp at h1
    | cons x1 xs1 =>
      cases input2 with
      | nil => simp at h2
      | cons x2 xs2 =>
        cases i with
        | zero => simp [RandomWeightedAverage]
        | succ j =>
          have hj : j < ws.length := Nat.lt_of_succ_lt_succ hi
          have hj1 : j < xs1.length := Nat.lt_of_succ_lt_succ h1
          have hj2 : j < xs2.length := Nat.lt_of_succ_lt_succ h2
          simpa [RandomWeightedAverage] using ih xs1 xs2 j hj hj1 hj2

/-- C5: for batches of equal batch size, RandomWeightedAverage produces at
each batch index the pointwise convex combination w * real + (1 - w) *
generated with the single per-batch-element scalar w broadcast over the
whole sample, and with 0 <= w < 1 every coordinate of the output sample
lies on the segment between the corresponding coordinates of the real and
generated samples. -/
theorem randomWeightedAverage_segment (weights : List ℝ)
    (input1 input2 : List (List ℝ)) (i : ℕ) (hi : i < weights.length)
    (h1 : i < input1.length) (h2 : i < input2.length)
    (hw0 : 0 ≤ weights.get ⟨i, hi⟩) (hw1 : weights.get ⟨i, hi⟩ < 1) :
    (RandomWeightedAverage weights input1 input2)[i]? =
      some (List.zipWith
        (fun a b => weights.get ⟨i, hi⟩ * a + (1 - weights.get ⟨i, hi⟩) * b)
        (input1.get ⟨i, h1⟩) (input2.get ⟨i, h2⟩)) ∧
      ∀ p ∈ (input1.get ⟨i, h1⟩).zip (input2.get ⟨i, h2⟩),
        min p.1 p.2 ≤
            weights.get ⟨i, hi⟩ * p.1 + (1 - weights.get ⟨i, hi⟩) * p.2 ∧
          weights.get ⟨i, hi⟩ * p.1 + (1 - weights.get ⟨i, hi⟩) * p.2 ≤
            max p.1 p.2 := by
  refine ⟨randomWeightedAverage_getElem weights input1 input2 i hi h1 h2, ?_⟩
  intro p _
  constructor
  · nlinarith [min_le_left p.1 p.2, min_le_right p.1 p.2]
  · nlinarith [le_max_left p.1 p.2, le_max_right p.1 p.2]

/-- Concrete instantiation of randomWeightedAverage_segment at weight 1/2,
real batch [[0, 2]] and generated batch [[2, 4]]. -/
theorem randomWeightedAverage_segment_witness :
    ((0 : ℕ) < [(1 : ℝ) / 2].length ∧ (0 : ℕ) < [[(0 : ℝ), 2]].length ∧
        (0 : ℕ) < [[(2 : ℝ), 4]].length ∧ 0 ≤ (1 : ℝ) / 2 ∧ (1 : ℝ) / 2 < 1) ∧
      ((RandomWeightedAverage [(1 : ℝ) / 2] [[0, 2]] [[2, 4]])[0]? =
          some (List.zipWith
            (fun a b => (1 : ℝ) / 2 * a + (1 - (1 : ℝ) / 2) * b)
            [(0 : ℝ), 2] [(2 : ℝ), 4]) ∧
        ∀ p ∈ [(0 : ℝ), 2].zip [(2 : ℝ), 4],
          min p.1 p.2 ≤ (1 : ℝ) / 2 * p.1 + (1 - (1 : ℝ) / 2) * p.2 ∧
            (1 : ℝ) / 2 * p.1 + (1 - (1 : ℝ) / 2) * p.2 ≤ max p.1 p.2) :=
  ⟨⟨by norm_num, by norm_num, by norm_num, by norm_num, by norm_num⟩,
    randomWeightedAverage_segment [(1 : ℝ) / 2] [[0, 2]] [[2, 4]] 0
      (by norm_num) (by norm_num) (by norm_num) (by norm_num) (by norm_num)⟩

lemma residual_decoder_output_shape_eq (h w c : ℕ) :
    residual_decoder_output_shape h w c = ⟨16 * h, 16 * w, c⟩ := by
  unfold residual_decoder_output_shape
  dsimp only [up_bilinear_shape, conv2d_transpose_same_shape,
    conv_same_stride1_shape, res_conv_shape, pixel_shuffler_shape]
  simp only [Shape2D.mk.injEq, and_true]
  omega

/-- C8: residual_decoder upsamples its target feature map by a factor of
exactly 16 in each spatial dimension, build_gan and wgangp_conditional
instantiate it at (h / 16, w / 16), so the generated images have shape
(16 * (h / 16), 16 * (w / 16), c) and match the discriminator input shape
(h, w, c) exactly when both h and w are divisible by 16. -/
theorem residual_decoder_upsample_16 (h w c : ℕ) :
    residual_decoder_output_shape h w c = ⟨16 * h, 16 * w, c⟩ ∧
      build_gan_generated_shape h w c = ⟨16 * (h / 16), 16 * (w / 16), c⟩ ∧
      (build_gan_generated_shape h w c =
          build_gan_discriminator_input_shape h w c ↔
        h % 16 = 0 ∧ w % 16 = 0) ∧
      (wgangp_conditional_generated_shape h w c =
          wgangp_conditional_discriminator_input_shape h w c ↔
        h % 16 = 0 ∧ w % 16 = 0) := by
  refine ⟨residual_decoder_output_shape_eq h w c, ?_, ?_, ?_⟩
  · exact residual_decoder_output_shape_eq (h / 16) (w / 16) c
  · rw [build_gan_generated_shape, residual_decoder_output_shape_eq,
      build_gan_discriminator_input_shape]
    simp only [Shape2D.mk.injEq, and_true]
    omega
  · rw [wgangp_conditional_generated_shape, residual_decoder_output_shape_eq,
      wgangp_conditional_discriminator_input_shape]
    simp only [Shape2D.mk.injEq, and_true]
    omega

/-- C2: in build_gan, build_cyclewgan (both critics) and
wgangp_conditional, the compiled discriminator total loss is the
Wasserstein critic difference between the mean critic output on real
samples and the mean critic output on generated samples, plus the
gradient-penalty term weighted by GRADIENT_PENALTY_WEIGHT at the
interpolated samples. -/
theorem wgangp_discriminator_total_loss (d_real d_fake : List ℝ)
    (g : List (List ℝ)) (gpw : ℝ) :
    build_gan_discriminator_loss d_real d_fake g gpw
        = wasserstein_critic_difference d_real d_fake
            + gradient_penalty_loss g gpw ∧
      build_cyclewgan_discriminator_A_loss d_real d_fake g gpw
        = wasserstein_critic_difference d_real d_fake
            + gradient_penalty_loss g gpw ∧
      build_cyclewgan_discriminator_B_loss d_real d_fake g gpw
        = wasserstein_critic_difference d_real d_fake
            + gradient_penalty_loss g gpw ∧
      wgangp_conditional_discriminator_loss d_real d_fake g gpw
        = wasserstein_critic_difference d_real d_fake
            + gradient_penalty_loss g gpw :=
  ⟨rfl, rfl, rfl, rfl⟩

lemma map_zip_map_self (f : List ℝ → List ℝ) (xs : List (List ℝ)) :
    ((xs.zip (xs.map f)).map (fun p => absDiffRow p.1 p.2))
      = xs.map (fun x => absDiffRow x (f x)) := by
  induction xs with
  | nil => rfl
  | cons a t ih => simp only [List.map_cons, List.zip_cons_cons, ih]

/-- C3: build_cyclegan and build_cyclewgan construct exactly two generators
and exactly two discriminators, and each joint generator model total loss
decomposes as its adversarial terms plus the cycle-consistency term:
cyclic_loss_w times the sum of the mean absolute difference between each
domain-A input and its A-to-B-to-A reconstruction and the mean absolute
difference between each domain-B input and its B-to-A-to-B
reconstruction. -/
theorem cyclegan_two_pairs_and_cycle_loss :
    build_cyclegan_wiring.generator_instances.length = 2 ∧
      build_cyclegan_wiring.discriminator_instances.length = 2 ∧
      build_cyclewgan_wiring.generator_instances.length = 2 ∧
      build_cyclewgan_wiring.discriminator_instances.length = 2 ∧
      ∀ (G_A G_B : List ℝ → List ℝ) (D_A D_B : List ℝ → ℝ)
        (w : ℝ) (xa xb : List (List ℝ)),
        build_cyclegan_generator_loss G_A G_B D_A D_B w xa xb
            = 0.5 * Kmean (xa.map (fun a => (D_B (G_A a)) ^ 2))
                + 0.5 * Kmean (xb.map (fun b => (D_A (G_B b)) ^ 2))
                + cycle_consistency_term G_A G_B w xa xb ∧
          build_cyclewgan_generator_loss G_A G_B D_A D_B w xa xb
            = Kmean (xa.map (fun a => D_B (G_A a)))
                + Kmean (xb.map (fun b => D_A (G_B b)))
                + cycle_consistency_term G_A G_B w xa xb := by
  refine ⟨rfl, rfl, rfl, rfl, ?_⟩
  intro G_A G_B D_A D_B w xa xb
  unfold build_cyclegan_generator_loss build_cyclewgan_generator_loss
    cycle_consistency_term meanAbsDiff
  rw [map_zip_map_self, map_zip_map_self]
  exact ⟨rfl, rfl⟩

/-- C4: in all four builders the generator and discriminator sub-model
instances applied inside the joint generator-training model are the very
instances applied inside the discriminator-training models (weights are
shared), and the trainability flags are set selectively: when the
generator model is compiled every discriminator layer is non-trainable,
and when each discriminator model is compiled every generator layer is
non-trainable and every discriminator layer is trainable. -/
theorem shared_instances_and_selective_freezing :
    (build_gan_wiring.generator_model_subnets
        = build_gan_wiring.discriminator_model_subnets ∧
      build_gan_wiring.generator_model_subnets
        = build_gan_wiring.generator_instances
            ++ build_gan_wiring.discriminator_instances) ∧
      (build_cyclegan_wiring.discriminator_model_subnets
          ⊆ build_cyclegan_wiring.generator_model_subnets ∧
        build_cyclegan_wiring.discriminator_B_model_subnets
          ⊆ build_cyclegan_wiring.generator_model_subnets ∧
        build_cyclegan_wiring.generator_model_subnets
          = build_cyclegan_wiring.generator_instances
              ++ build_cyclegan_wiring.discriminator_instances) ∧
      (build_cyclewgan_wiring.discriminator_model_subnets
          ⊆ build_cyclewgan_wiring.generator_model_subnets ∧
        build_cyclewgan_wiring.discriminator_B_model_subnets
          ⊆ build_cyclewgan_wiring.generator_model_subnets ∧
        build_cyclewgan_wiring.generator_model_subnets
          = build_cyclewgan_wiring.generator_instances
              ++ build_cyclewgan_wiring.discriminator_instances) ∧
      (wgangp_conditional_wiring.discriminator_model_subnets
          ⊆ wgangp_conditional_wiring.generator_model_subnets ∧
        wgangp_conditional_wiring.classifier_model_subnets
          ⊆ wgangp_conditional_wiring.generator_model_subnets) ∧
      (build_gan_flag_trace.1.discriminator_layers = false ∧
        build_gan_flag_trace.2.1.generator_layers = false ∧
        build_gan_flag_trace.2.1.discriminator_layers = true) ∧
      (build_cyclegan_flag_trace.1.discriminator_A_layers = false ∧
        build_cyclegan_flag_trace.1.discriminator_B_layers = false ∧
        build_cyclegan_flag_trace.2.1.generator_A_layers = false ∧
        build_cyclegan_flag_trace.2.1.generator_B_layers = false ∧
        build_cyclegan_flag_trace.2.1.discriminator_A_layers = true ∧
        build_cyclegan_flag_trace.2.1.discriminator_B_layers = true ∧
        build_cyclegan_flag_trace.2.2.1.generator_A_layers = false ∧
        build_cyclegan_flag_trace.2.2.1.generator_B_layers = false ∧
        build_cyclegan_flag_trace.2.2.1.discriminator_A_layers = true ∧
        build_cyclegan_flag_trace.2.2.1.discriminator_B_layers = true) ∧
      (build_cyclewgan_flag_trace.1.discriminator_A_layers = false ∧
        build_cyclewgan_flag_trace.1.discriminator_B_layers = false ∧
        build_cyclewgan_flag_trace.2.1.generator_A_layers = false ∧
        build_cyclewgan_flag_trace.2.1.generator_B_layers = false ∧
        build_cyclewgan_flag_trace.2.1.discriminator_A_layers = true ∧
        build_cyclewgan_flag_trace.2.1.discriminator_B_layers = true ∧
        build_cyclewgan_flag_trace.2.2.1.generator_A_layers = false ∧
        build_cyclewgan_flag_trace.2.2.1.generator_B_layers = false ∧
        build_cyclewgan_flag_trace.2.2.1.discriminator_A_layers = true ∧
        build_cyclewgan_flag_trace.2.2.1.discriminator_B_layers = true) ∧
      (wgangp_conditional_flag_trace.1.discriminator_layers = false ∧
        wgangp_conditional_flag_trace.2.1.generator_layers = false ∧
        wgangp_conditional_flag_trace.2.1.discriminator_layers = true) := by
  decide

/-- C9: when each builder returns, every discriminator (and, in
wgangp_conditional, classifier) layer is left trainable and every
generator layer is left non-trainable: the builders do not restore the
generators to a trainable state before returning. -/
theorem builders_return_with_generators_frozen :
    (build_gan_flag_trace.2.2.generator_layers = false ∧
        build_gan_flag_trace.2.2.discriminator_layers = true) ∧
      (build_cyclegan_flag_trace.2.2.2.generator_A_layers = false ∧
        build_cyclegan_flag_trace.2.2.2.generator_B_layers = false ∧
        build_cyclegan_flag_trace.2.2.2.discriminator_A_layers = true ∧
        build_cyclegan_flag_trace.2.2.2.discriminator_B_layers = true) ∧
      (build_cyclewgan_flag_trace.2.2.2.generator_A_layers = false ∧
        build_cyclewgan_flag_trace.2.2.2.generator_B_layers = false ∧
        build_cyclewgan_flag_trace.2.2.2.discriminator_A_layers = true ∧
        build_cyclewgan_flag_trace.2.2.2.discriminator_B_layers = true) ∧
      (wgangp_conditional_flag_trace.2.2.2.generator_layers = false ∧
        wgangp_conditional_flag_trace.2.2.2.discriminator_layers = true ∧
        wgangp_conditional_flag_trace.2.2.2.classifier_layers = true) := by
  decide

/-- C6: the generator input size is the latent dimension of the noise fed
to it: in build_gan the residual_decoder input shape and the noise Input
shape are both (latent_dim,), and in wgangp_conditional the noise Input
shape equals the residual_decoder input shape (both latent_dim +
condition_dim). -/
theorem latent_dim_is_generator_input_size (latent_dim condition_dim : ℕ) :
    residual_decoder_input_dim (build_gan_decoder_latent_dim latent_dim)
        = latent_dim ∧
      build_gan_noise_input_dim latent_dim = latent_dim ∧
      build_gan_noise_input_dim latent_dim
        = residual_decoder_input_dim (build_gan_decoder_latent_dim latent_dim) ∧
      wgangp_conditional_noise_input_dim latent_dim condition_dim
        = residual_decoder_input_dim
            (wgangp_conditional_decoder_latent_dim latent_dim condition_dim) ∧
      wgangp_conditional_noise_input_dim latent_dim condition_dim
        = latent_dim + condition_dim :=
  ⟨rfl, rfl, rfl, rfl, rfl⟩

lemma sum_map_div (l : List ℝ) (r : ℝ) :
    (l.map (fun x => x / r)).sum = l.sum / r := by
  induction l with
  | nil => simp
  | cons a t ih => simp [ih, add_div]

lemma softmax_sum_eq_one (xs : List ℝ) (h : xs ≠ []) :
    (softmax xs).sum = 1 := by
  unfold softmax
  have hne : xs.map Real.exp ≠ [] := by
    simpa using h
  have hpos : 0 < (xs.map Real.exp).sum :=
    List.sum_pos (xs.map Real.exp)
      (fun x hx => by
        rcases List.mem_map.mp hx with ⟨y, _, rfl⟩
        exact Real.exp_pos y)
      hne
  have hmap : xs.map (fun x => Real.exp x / (xs.map Real.exp).sum)
      = (xs.map Real.exp).map (fun y => y / (xs.map Real.exp).sum) := by
    rw [List.map_map]
    rfl
  rw [hmap, sum_map_div, div_self (ne_of_gt hpos)]

/-- C7: wgangp_conditional builds a classifier as a
residual_discriminator with as_classifier = condition_dim, so its output
layer is a Dense(condition_dim) with softmax activation whose output sums
to 1 over the condition_dim classes; the classifier model is compiled
with categorical cross-entropy on real samples, and the generator model
combines the add_loss mean critic output on generated samples with a
categorical cross-entropy compile loss on the classifier head for
generated samples. -/
theorem wgangp_conditional_classifier_spec (condition_dim : ℕ)
    (hc : 0 < condition_dim) :
    residual_discriminator_output
        (wgangp_conditional_classifier_units condition_dim)
      = ⟨condition_dim, Act.softmax⟩ ∧
    (∀ xs : List ℝ, xs ≠ [] → (softmax xs).sum = 1) ∧
    wgangp_conditional_classifier_compile_loss
      = some KerasLoss.categorical_crossentropy ∧
    wgangp_conditional_generator_compile_losses
      = [none, some KerasLoss.categorical_crossentropy] ∧
    ∀ d_fake, wgangp_conditional_generator_add_loss d_fake = Kmean d_fake := by
  refine ⟨?_, fun xs h => softmax_sum_eq_one xs h, rfl, rfl, fun _ => rfl⟩
  unfold residual_discriminator_output wgangp_conditional_classifier_units
  simp [hc]

/-- Concrete instantiation of wgangp_conditional_classifier_spec at
condition_dim = 10. -/
theorem wgangp_conditional_classifier_spec_witness :
    0 < 10 ∧
      (residual_discriminator_output (wgangp_conditional_classifier_units 10)
          = ⟨10, Act.softmax⟩ ∧
        (∀ xs : List ℝ, xs ≠ [] → (softmax xs).sum = 1) ∧
        wgangp_conditional_classifier_compile_loss
          = some KerasLoss.categorical_crossentropy ∧
        wgangp_conditional_generator_compile_losses
          = [none, some KerasLoss.categorical_crossentropy] ∧
        ∀ d_fake,
          wgangp_conditional_generator_add_loss d_fake = Kmean d_fake) :=
  ⟨by norm_num, wgangp_conditional_classifier_spec 10 (by norm_num)⟩

end WganGP
